import Mathlib

/-!
Shallow embedding of the binary protocol codec of mpk-mini-ctl.

Sources embedded here:
  * `src/u14.rs`     — the 14-bit big-endian scalar codec (`U14BE`), Result-based.
  * `src/mpkbank.rs` — the Result-based bank-descriptor codec (`MpkBankDescriptor`,
    `Note`, `Toggle`, `Knob`, `Pad`, `PadMode`, `ClockSource`,
    `ArpeggiatorTimeDivision`, `ArpeggiatorMode`, `Swing`, `Joystick`).
  * `src/mpkmidi.rs` — the MIDI frame parser (`parse_msg`, `parse_channel_msg`,
    `parse_sysex`, `sysex_get_bank`) together with the panic-based descriptor
    decoder that file still carries and uses internally.  Functions from this
    file can abort the process with `panic!` / `unwrap` / out-of-bounds
    indexing, so they are embedded in an explicit panic monad `PanicOr`.

Machine integers (`u8`, `u16`) are modelled as `Nat`; where a theorem depends
on their range, the range appears as an explicit hypothesis (`< 256`,
`< 65536`).  Rust `format!` error strings are modelled as `String` values and
`ParseError` as the message it carries.
-/

namespace MpkCtl

/-- `ParseError` of `src/error.rs` wraps the formatted message; we model it as
the message itself. -/
abbrev ParseError := String

/-- Outcome of running a piece of Rust code that may `panic!` (or `unwrap` /
index out of bounds): either a value or a process abort carrying the panic
message. -/
inductive PanicOr (α : Type) where
  | panicked (msg : String)
  | ret (a : α)
deriving DecidableEq, Repr

instance : Monad PanicOr where
  pure := .ret
  bind x f := match x with
    | .panicked m => .panicked m
    | .ret a => f a

instance {ε α : Type} [DecidableEq ε] [DecidableEq α] : DecidableEq (Except ε α) :=
  fun a b =>
    match a, b with
    | .ok x, .ok y => if h : x = y then .isTrue (by rw [h]) else .isFalse (by simp [h])
    | .error x, .error y => if h : x = y then .isTrue (by rw [h]) else .isFalse (by simp [h])
    | .ok _, .error _ => .isFalse (by simp)
    | .error _, .ok _ => .isFalse (by simp)

/-- Rust slice indexing `bytes[i]`: panics when out of bounds. -/
def idx (bytes : List Nat) (i : Nat) : PanicOr Nat :=
  match bytes.get? i with
  | some v => .ret v
  | none => .panicked "index out of bounds"

/-! ## Data model (shared by `mpkbank.rs` and the older copy in `mpkmidi.rs`) -/

structure Note where
  value : Nat
deriving DecidableEq, Repr

inductive Toggle where
  | off
  | on
deriving DecidableEq, Repr

structure Knob where
  control : Nat
  min : Nat
  max : Nat
deriving DecidableEq, Repr

inductive PadMode where
  | momentary
  | toggle
deriving DecidableEq, Repr

structure Pad where
  note : Note
  control : Nat
  program : Nat
  mode : PadMode
deriving DecidableEq, Repr

inductive ClockSource where
  | internal
  | external
deriving DecidableEq, Repr

inductive ArpeggiatorTimeDivision where
  | d4 | d4T | d8 | d8T | d16 | d16T | d32 | d32T
deriving DecidableEq, Repr

inductive ArpeggiatorMode where
  | up | down | exclusive | inclusive | order | random
deriving DecidableEq, Repr

inductive Swing where
  | s50 | s55 | s57 | s59 | s61 | s64
deriving DecidableEq, Repr

inductive Joystick where
  | pitchbend
  | controlChannel (c : Nat)
  | splitControlChannels (c1 c2 : Nat)
deriving DecidableEq, Repr

/-- `U14BE { host: u16 }` of `src/u14.rs` (same layout in `mpkmidi.rs`). -/
structure U14BE where
  host : Nat
deriving DecidableEq, Repr

structure MpkBankDescriptor where
  octave : Nat
  transpose : Nat
  pad_midi_channel : Nat
  keybed_channel : Nat
  joystick_x : Joystick
  joystick_y : Joystick
  arpeggiator : Toggle
  arpeggiator_mode : ArpeggiatorMode
  arpeggiator_time_division : ArpeggiatorTimeDivision
  arpeggiator_octave : Nat
  swing : Swing
  latch : Toggle
  clock_source : ClockSource
  tempo_taps : Nat
  tempo : U14BE
  knobs : List Knob
  pads : List Pad
deriving DecidableEq, Repr

inductive MpkMidiMessage where
  | NoteOff (channel note velocity : Nat)
  | NoteOn (channel note velocity : Nat)
  | ControlChange (channel control value : Nat)
  | ProgramChange (channel program : Nat)
  | PitchBend (channel : Nat) (value : Nat)
  | Reset
  | Bank (index : Nat) (descriptor : MpkBankDescriptor)
  | Unknown (bytes : List Nat)
deriving DecidableEq, Repr

/-! ## Note textual codec (`Note::from_str` / `Note::as_str`, mpkbank.rs 77-119)

Rust `s.split(' ')` and `str::parse::<i8>` are re-implemented structurally on
`List Char` so that the kernel can evaluate them. -/

/-- Rust `s.split(' ').collect::<Vec<_>>()`: splits at every space, keeping
empty fragments (`"".split(' ')` is `[""]`). -/
def splitOnSpace : List Char → List (List Char)
  | [] => [[]]
  | c :: rest =>
    match splitOnSpace rest with
    | [] => [[c]]
    | g :: gs => if c = ' ' then [] :: g :: gs else (c :: g) :: gs

/-- Digit-string accumulator for `parseI8` (`None` on a non-digit). -/
def parseDigitsGo : List Char → Nat → Option Nat
  | [], acc => some acc
  | c :: rest, acc =>
    if c.isDigit then parseDigitsGo rest (acc * 10 + (c.toNat - 48)) else none

def parseDigits (cs : List Char) : Option Nat :=
  match cs with
  | [] => none
  | _ => parseDigitsGo cs 0

/-- Rust `str::parse::<i8>`: optional sign, decimal digits, must fit in
`[-128, 127]`. -/
def parseI8 (cs : List Char) : Option Int :=
  match cs with
  | '-' :: rest => (parseDigits rest).bind fun n =>
      if n ≤ 128 then some (-(n : Int)) else none
  | '+' :: rest => (parseDigits rest).bind fun n =>
      if n ≤ 127 then some (n : Int) else none
  | _ => (parseDigits cs).bind fun n =>
      if n ≤ 127 then some (n : Int) else none

/-- The pitch-class table of `Note::from_str` (mpkbank.rs 82-96). -/
def noteNameValue (s : String) : Option Nat :=
  match s with
  | "C" => some 0
  | "C#/Db" => some 1 | "C#" => some 1 | "Db" => some 1
  | "D" => some 2
  | "D#/Eb" => some 3 | "D#" => some 3 | "Eb" => some 3
  | "E" => some 4
  | "F" => some 5
  | "F#/Gb" => some 6 | "F#" => some 6 | "Gb" => some 6
  | "G" => some 7
  | "G#/Ab" => some 8 | "G#" => some 8 | "Ab" => some 8
  | "A" => some 9
  | "A#/Bb" => some 10 | "A#" => some 10 | "Bb" => some 10
  | "B" => some 11
  | _ => none

/-- `Note::from_str` (mpkbank.rs 77-99).  The octave is parsed with
`.parse::<i8>().unwrap()` — an unparseable octave aborts the process, hence
the `PanicOr` layer around the `Result`.  The final arithmetic
`((octave + 1) * 12) as u8 + note` is modelled with release (wrapping)
semantics, i.e. reduction mod 256. -/
def Note.from_str (s : String) : PanicOr (Except ParseError Note) :=
  let note_octave := splitOnSpace s.data
  if note_octave.length ≠ 2 then
    .ret (.error ("cannot parse note string " ++ s ++
      " (expected string with exactly one space)"))
  else
    match noteNameValue (String.mk (note_octave.getD 0 [])) with
    | none => .ret (.error ("cannot parse note " ++
        String.mk (note_octave.getD 0 []) ++ " from " ++ s))
    | some note =>
      match parseI8 (note_octave.getD 1 []) with
      | none => .panicked "called Result::unwrap on an Err value"
      | some octave =>
        .ret (.ok ⟨(((octave + 1) * 12 + note).emod 256).toNat⟩)

/-- Canonical pitch-class name of `Note::as_str` (mpkbank.rs 103-117); the
source's `unreachable!` arm (`value % 12` is always `< 12`) is the last case. -/
def noteName (pc : Nat) : String :=
  match pc with
  | 0 => "C"
  | 1 => "C#/Db"
  | 2 => "D"
  | 3 => "D#/Eb"
  | 4 => "E"
  | 5 => "F"
  | 6 => "F#/Gb"
  | 7 => "G"
  | 8 => "G#/Ab"
  | 9 => "A"
  | 10 => "A#/Bb"
  | _ => "B"

/-- `Note::as_str` (mpkbank.rs 101-119): `"<name> <octave>"` with
`octave = value / 12 - 1` (as `i8`, so it can be `-1`). -/
def Note.as_str (n : Note) : String :=
  noteName (n.value % 12) ++ " " ++ toString ((n.value / 12 : Int) - 1)

/-! ## U14BE (`src/u14.rs`, Result-based) -/

/-- `U14BE::from_device` (u14.rs 36-42). -/
def U14BE.from_device (b0 b1 : Nat) : Except ParseError U14BE :=
  if (b0 ||| b1) &&& 0x80 = 0x80 then
    .error ("ERROR: MSB set on U14 type from device: [" ++ toString b0 ++
      ", " ++ toString b1 ++ "]")
  else
    .ok ⟨(b0 <<< 7) ||| b1⟩

/-- `U14BE::to_device` (u14.rs 44-53). -/
def U14BE.to_device (u : U14BE) : Except ParseError (List Nat) :=
  if u.host &&& 0xc000 ≠ 0 then
    .error ("value too large to convert into u14: " ++ toString u.host)
  else
    .ok [(u.host &&& 0x3f80) >>> 7, u.host &&& 0x007f]

/-! ## mpkbank.rs: the Result-based bank-descriptor codec -/

def Toggle.from' (value : Nat) : Except ParseError Toggle :=
  match value with
  | 0 => .ok .off
  | 1 => .ok .on
  | v => .error ("Unknown value for toggle " ++ toString v)

/-- Discriminant of `Toggle` (`Off = 0, On = 1`), used by `as u8` casts. -/
def Toggle.toU8 : Toggle → Nat
  | .off => 0
  | .on => 1

def PadMode.from' (value : Nat) : Except ParseError PadMode :=
  match value with
  | 0 => .ok .momentary
  | 1 => .ok .toggle
  | v => .error ("Unknown padmode value " ++ toString v)

/-- Discriminant of `PadMode` in mpkbank.rs (`Momentary = 0, Toggle = 1`). -/
def PadMode.toU8 : PadMode → Nat
  | .momentary => 0
  | .toggle => 1

def ClockSource.from' (value : Nat) : Except ParseError ClockSource :=
  match value with
  | 0 => .ok .internal
  | 1 => .ok .external
  | v => .error ("Unknown clock source value " ++ toString v)

def ClockSource.toU8 : ClockSource → Nat
  | .internal => 0
  | .external => 1

def ArpeggiatorTimeDivision.from' (value : Nat) :
    Except ParseError ArpeggiatorTimeDivision :=
  match value with
  | 0 => .ok .d4
  | 1 => .ok .d4T
  | 2 => .ok .d8
  | 3 => .ok .d8T
  | 4 => .ok .d16
  | 5 => .ok .d16T
  | 6 => .ok .d32
  | 7 => .ok .d32T
  | v => .error ("Invalid arpeggiator time division " ++ toString v)

def ArpeggiatorTimeDivision.toU8 : ArpeggiatorTimeDivision → Nat
  | .d4 => 0 | .d4T => 1 | .d8 => 2 | .d8T => 3
  | .d16 => 4 | .d16T => 5 | .d32 => 6 | .d32T => 7

def ArpeggiatorMode.from' (value : Nat) : Except ParseError ArpeggiatorMode :=
  match value with
  | 0 => .ok .up
  | 1 => .ok .down
  | 2 => .ok .exclusive
  | 3 => .ok .inclusive
  | 4 => .ok .order
  | 5 => .ok .random
  | v => .error ("Invalid arpeggiator mode " ++ toString v)

def ArpeggiatorMode.toU8 : ArpeggiatorMode → Nat
  | .up => 0 | .down => 1 | .exclusive => 2
  | .inclusive => 3 | .order => 4 | .random => 5

def Swing.from' (value : Nat) : Except ParseError Swing :=
  match value with
  | 0 => .ok .s50
  | 1 => .ok .s55
  | 2 => .ok .s57
  | 3 => .ok .s59
  | 4 => .ok .s61
  | 5 => .ok .s64
  | v => .error ("Invalid swing value " ++ toString v)

def Swing.toU8 : Swing → Nat
  | .s50 => 0 | .s55 => 1 | .s57 => 2 | .s59 => 3 | .s61 => 4 | .s64 => 5

/-- `Joystick::from` (mpkbank.rs 359-366).  Note: the out-of-range arm
formats `bytes[1]` into the message, not the tested tag `bytes[0]`. -/
def Joystick.from' (b0 b1 b2 : Nat) : Except ParseError Joystick :=
  match b0 with
  | 0 => .ok .pitchbend
  | 1 => .ok (.controlChannel b1)
  | 2 => .ok (.splitControlChannels b1 b2)
  | _ => .error ("Invalid joystick mode " ++ toString b1)

/-- `Joystick::to_bytes` (mpkbank.rs 368-375). -/
def Joystick.to_bytes : Joystick → List Nat
  | .pitchbend => [0, 0, 0]
  | .controlChannel c => [1, c, 0]
  | .splitControlChannels c1 c2 => [2, c1, c2]

/-- `Knob::from` (mpkbank.rs 174-180). -/
def Knob.from' (b0 b1 b2 : Nat) : Knob :=
  { control := b0, min := b1, max := b2 }

/-- `Knob::to_bytes` (mpkbank.rs 182-184). -/
def Knob.to_bytes (k : Knob) : List Nat :=
  [k.control, k.min, k.max]

/-- `Pad::from` (mpkbank.rs 226-233): wire order `[note, program, control, mode]`. -/
def Pad.from' (b0 b1 b2 b3 : Nat) : Except ParseError Pad := do
  let mode ← PadMode.from' b3
  pure { note := ⟨b0⟩, program := b1, control := b2, mode := mode }

/-- `Pad::to_bytes` (mpkbank.rs 235-238): emits
`[note.value, control, program, mode]` — the struct's field order, not the
wire order the decoder reads. -/
def Pad.to_bytes (p : Pad) : List Nat :=
  [p.note.value, p.control, p.program, p.mode.toU8]

def MPK_BANK_DESCRIPTOR_LENGTH : Nat := 108

/-- `MpkBankDescriptor::parse_knobs` (mpkbank.rs 442-452). -/
def MpkBankDescriptor.parse_knobs (bytes : List Nat) :
    Except ParseError (List Knob) :=
  if bytes.length ≠ 8 * 3 then
    .error ("trying to parse knobs with unexpected length " ++
      toString bytes.length ++ " (expected 24)")
  else
    .ok ((List.range 8).map fun i =>
      Knob.from' (bytes.getD (i * 3) 0) (bytes.getD (i * 3 + 1) 0)
        (bytes.getD (i * 3 + 2) 0))

/-- `MpkBankDescriptor::parse_pads` (mpkbank.rs 454-464). -/
def MpkBankDescriptor.parse_pads (bytes : List Nat) :
    Except ParseError (List Pad) :=
  if bytes.length ≠ 16 * 4 then
    .error ("trying to parse pads with unexpected length " ++
      toString bytes.length ++ " (expected 64)")
  else
    (List.range 16).mapM fun i =>
      Pad.from' (bytes.getD (i * 4) 0) (bytes.getD (i * 4 + 1) 0)
        (bytes.getD (i * 4 + 2) 0) (bytes.getD (i * 4 + 3) 0)

/-- `MpkBankDescriptor::from` (mpkbank.rs 466-490); sub-fields are decoded in
the order the Rust struct literal evaluates them. -/
def MpkBankDescriptor.from' (bytes : List Nat) :
    Except ParseError MpkBankDescriptor :=
  if bytes.length ≠ MPK_BANK_DESCRIPTOR_LENGTH then
    .error ("Unexpected length for bank descriptor (" ++
      toString bytes.length ++ ", expected 108)")
  else do
    let arpeggiator ← Toggle.from' (bytes.getD 3 0)
    let arpeggiator_mode ← ArpeggiatorMode.from' (bytes.getD 4 0)
    let arpeggiator_time_division ← ArpeggiatorTimeDivision.from' (bytes.getD 5 0)
    let clock_source ← ClockSource.from' (bytes.getD 6 0)
    let latch ← Toggle.from' (bytes.getD 7 0)
    let swing ← Swing.from' (bytes.getD 8 0)
    let tempo ← U14BE.from_device (bytes.getD 10 0) (bytes.getD 11 0)
    let joystick_x ← Joystick.from' (bytes.getD 13 0) (bytes.getD 14 0) (bytes.getD 15 0)
    let joystick_y ← Joystick.from' (bytes.getD 16 0) (bytes.getD 17 0) (bytes.getD 18 0)
    let pads ← MpkBankDescriptor.parse_pads ((bytes.drop 19).take 64)
    let knobs ← MpkBankDescriptor.parse_knobs ((bytes.drop 83).take 24)
    pure {
      pad_midi_channel := bytes.getD 0 0
      keybed_channel := bytes.getD 1 0
      octave := bytes.getD 2 0
      arpeggiator := arpeggiator
      arpeggiator_mode := arpeggiator_mode
      arpeggiator_time_division := arpeggiator_time_division
      clock_source := clock_source
      latch := latch
      swing := swing
      tempo_taps := bytes.getD 9 0
      tempo := tempo
      arpeggiator_octave := bytes.getD 12 0
      joystick_x := joystick_x
      joystick_y := joystick_y
      pads := pads
      knobs := knobs
      transpose := bytes.getD 107 0
    }

/-- `MpkBankDescriptor::into_bytes` (mpkbank.rs 492-519).  The
`self.tempo.to_device().unwrap()` and the final
`assert_eq!(ret.len(), MPK_BANK_DESCRIPTOR_LENGTH)` are panics; a `none`
result models the abort. -/
def MpkBankDescriptor.into_bytes (d : MpkBankDescriptor) : Option (List Nat) :=
  match d.tempo.to_device with
  | .error _ => none
  | .ok tempoBytes =>
    let ret : List Nat :=
      [d.pad_midi_channel, d.keybed_channel, d.octave, d.arpeggiator.toU8,
       d.arpeggiator_mode.toU8, d.arpeggiator_time_division.toU8,
       d.clock_source.toU8, d.latch.toU8, d.swing.toU8, d.tempo_taps] ++
      tempoBytes ++ [d.arpeggiator_octave] ++
      d.joystick_x.to_bytes ++ d.joystick_y.to_bytes ++
      (d.pads.map Pad.to_bytes).flatten ++
      (d.knobs.map Knob.to_bytes).flatten ++ [d.transpose]
    if ret.length = MPK_BANK_DESCRIPTOR_LENGTH then some ret else none

/-! ## mpkmidi.rs: the MIDI frame parser and the panic-based descriptor
decoder that file still carries.  Every fallible step here is a `panic!`
(or an `unwrap` / slice index), so everything lives in `PanicOr`. -/

namespace Midi

def MIDI_SYSEX : Nat := 0xf0
def MIDI_SYSEX_END : Nat := 0xf7
def SYSEX_AKAI : Nat := 0x47
def MIDI_RESET : Nat := 0xff

def SYSEX_MPK_BANK : List Nat := [0x00, 0x26, 0x67, 0x00, 0x6d]

/-- `sysex_get_bank` (mpkmidi.rs 45-47). -/
def sysex_get_bank (id : Nat) : List Nat :=
  [MIDI_SYSEX, SYSEX_AKAI, 0x00, 0x26, 0x66, 0x00, 0x01, id, MIDI_SYSEX_END]

/-- mpkmidi.rs `U14BE::from_device` (55-57): no MSB validation at all. -/
def U14BE.from_device (b0 b1 : Nat) : U14BE :=
  ⟨(b0 <<< 7) ||| b1⟩

def Toggle.from' (value : Nat) : PanicOr Toggle :=
  match value with
  | 0 => .ret .off
  | 1 => .ret .on
  | v => .panicked ("Unknown value for toggle " ++ toString v)

def PadMode.from' (value : Nat) : PanicOr PadMode :=
  match value with
  | 0 => .ret .momentary
  | 1 => .ret .toggle
  | v => .panicked ("Unknown padmode value " ++ toString v)

def ClockSource.from' (value : Nat) : PanicOr ClockSource :=
  match value with
  | 0 => .ret .internal
  | 1 => .ret .external
  | v => .panicked ("Unknown clock source value " ++ toString v)

def ArpeggiatorTimeDivision.from' (value : Nat) : PanicOr ArpeggiatorTimeDivision :=
  match value with
  | 0 => .ret .d4
  | 1 => .ret .d4T
  | 2 => .ret .d8
  | 3 => .ret .d8T
  | 4 => .ret .d16
  | 5 => .ret .d16T
  | 6 => .ret .d32
  | 7 => .ret .d32T
  | v => .panicked ("Invalid arpeggiator time division " ++ toString v)

def ArpeggiatorMode.from' (value : Nat) : PanicOr ArpeggiatorMode :=
  match value with
  | 0 => .ret .up
  | 1 => .ret .down
  | 2 => .ret .exclusive
  | 3 => .ret .inclusive
  | 4 => .ret .order
  | 5 => .ret .random
  | v => .panicked ("Invalid arpeggiator mode " ++ toString v)

def Swing.from' (value : Nat) : PanicOr Swing :=
  match value with
  | 0 => .ret .s50
  | 1 => .ret .s55
  | 2 => .ret .s57
  | 3 => .ret .s59
  | 4 => .ret .s61
  | 5 => .ret .s64
  | v => .panicked ("Invalid swing value " ++ toString v)

/-- mpkmidi.rs `Joystick::from` (326-333); as in mpkbank.rs, the panic
message formats `bytes[1]`, not the tested tag `bytes[0]`. -/
def Joystick.from' (b0 b1 b2 : Nat) : PanicOr Joystick :=
  match b0 with
  | 0 => .ret .pitchbend
  | 1 => .ret (.controlChannel b1)
  | 2 => .ret (.splitControlChannels b1 b2)
  | _ => .panicked ("Invalid joystick mode " ++ toString b1)

/-- mpkmidi.rs `Pad::from` (196-205): wire order `[note, program, control, mode]`. -/
def Pad.from' (b0 b1 b2 b3 : Nat) : PanicOr Pad := do
  let mode ← PadMode.from' b3
  pure { note := ⟨b0⟩, program := b1, control := b2, mode := mode }

/-- mpkmidi.rs `MpkBankDescriptor::parse_knobs` (405-414). -/
def MpkBankDescriptor.parse_knobs (bytes : List Nat) : PanicOr (List Knob) :=
  if bytes.length ≠ 8 * 3 then
    .panicked ("trying to parse knobs with unexpected length " ++
      toString bytes.length ++ " (expected 24)")
  else
    .ret ((List.range 8).map fun i =>
      Knob.from' (bytes.getD (i * 3) 0) (bytes.getD (i * 3 + 1) 0)
        (bytes.getD (i * 3 + 2) 0))

/-- mpkmidi.rs `MpkBankDescriptor::parse_pads` (416-425). -/
def MpkBankDescriptor.parse_pads (bytes : List Nat) : PanicOr (List Pad) :=
  if bytes.length ≠ 16 * 4 then
    .panicked ("trying to parse pads with unexpected length " ++
      toString bytes.length ++ " (expected 64)")
  else
    (List.range 16).mapM fun i =>
      Pad.from' (bytes.getD (i * 4) 0) (bytes.getD (i * 4 + 1) 0)
        (bytes.getD (i * 4 + 2) 0) (bytes.getD (i * 4 + 3) 0)

/-- mpkmidi.rs `MpkBankDescriptor::from` (427-450), panic-based. -/
def MpkBankDescriptor.from' (bytes : List Nat) : PanicOr MpkBankDescriptor :=
  if bytes.length ≠ 108 then
    .panicked ("Unexpected length for bank descriptor (" ++
      toString bytes.length ++ ", expected 108)")
  else do
    let arpeggiator ← Toggle.from' (bytes.getD 3 0)
    let arpeggiator_mode ← ArpeggiatorMode.from' (bytes.getD 4 0)
    let arpeggiator_time_division ← ArpeggiatorTimeDivision.from' (bytes.getD 5 0)
    let clock_source ← ClockSource.from' (bytes.getD 6 0)
    let latch ← Toggle.from' (bytes.getD 7 0)
    let swing ← Swing.from' (bytes.getD 8 0)
    let tempo := U14BE.from_device (bytes.getD 10 0) (bytes.getD 11 0)
    let joystick_x ← Joystick.from' (bytes.getD 13 0) (bytes.getD 14 0) (bytes.getD 15 0)
    let joystick_y ← Joystick.from' (bytes.getD 16 0) (bytes.getD 17 0) (bytes.getD 18 0)
    let pads ← MpkBankDescriptor.parse_pads ((bytes.drop 19).take 64)
    let knobs ← MpkBankDescriptor.parse_knobs ((bytes.drop 83).take 24)
    pure {
      pad_midi_channel := bytes.getD 0 0
      keybed_channel := bytes.getD 1 0
      octave := bytes.getD 2 0
      arpeggiator := arpeggiator
      arpeggiator_mode := arpeggiator_mode
      arpeggiator_time_division := arpeggiator_time_division
      clock_source := clock_source
      latch := latch
      swing := swing
      tempo_taps := bytes.getD 9 0
      tempo := tempo
      arpeggiator_octave := bytes.getD 12 0
      joystick_x := joystick_x
      joystick_y := joystick_y
      pads := pads
      knobs := knobs
      transpose := bytes.getD 107 0
    }

/-- The four `return None` sites of `parse_sysex` (mpkmidi.rs 453-474), told
apart by the diagnostic each one prints: `runt` (length < 3), `malformed`
(bad end marker), `nonAkai` (wrong manufacturer byte), `unknownAkai`
(vendor payload with an unrecognized signature). -/
inductive SysexParse where
  | ok (m : MpkMidiMessage)
  | runt
  | malformed
  | nonAkai
  | unknownAkai
deriving DecidableEq, Repr

/-- `parse_sysex` (mpkmidi.rs 453-474).  `payload` is `bytes[2..len-1]`;
`payload.starts_with(&SYSEX_MPK_BANK)` is the 5-byte signature match, and on
a match `payload[5]` is the bank index (a panic when absent) and
`payload[6..]` feeds the panic-based descriptor decoder. -/
def parse_sysex (bytes : List Nat) : PanicOr SysexParse :=
  if bytes.length < 3 then .ret .runt
  else if bytes.getLastD 0 ≠ MIDI_SYSEX_END then .ret .malformed
  else if bytes.getD 1 0 ≠ SYSEX_AKAI then .ret .nonAkai
  else
    let payload := (bytes.drop 2).dropLast
    if payload.take 5 = SYSEX_MPK_BANK then
      match idx payload 5 with
      | .panicked m => .panicked m
      | .ret bank =>
        match MpkBankDescriptor.from' (payload.drop 6) with
        | .panicked m => .panicked m
        | .ret d => .ret (.ok (.Bank bank d))
    else .ret .unknownAkai

/-- `parse_channel_msg` (mpkmidi.rs 476-488); data bytes are slice-indexed
without a length check, so a short frame aborts. -/
def parse_channel_msg (bytes : List Nat) : PanicOr (Option MpkMidiMessage) := do
  let b0 ← idx bytes 0
  let channel := b0 &&& 0x0f
  match b0 &&& 0xf0 with
  | 0x80 => do
    let n ← idx bytes 1
    let v ← idx bytes 2
    pure (some (.NoteOff channel n v))
  | 0x90 => do
    let n ← idx bytes 1
    let v ← idx bytes 2
    pure (some (.NoteOn channel n v))
  | 0xa0 => pure none
  | 0xb0 => do
    let c ← idx bytes 1
    let v ← idx bytes 2
    pure (some (.ControlChange channel c v))
  | 0xc0 => do
    let p ← idx bytes 1
    pure (some (.ProgramChange channel p))
  | 0xd0 => pure none
  | 0xe0 => do
    let lo ← idx bytes 1
    let hi ← idx bytes 2
    pure (some (.PitchBend channel (lo + (hi <<< 7))))
  | _ => pure none

/-- `parse_msg` (mpkmidi.rs 490-508).  An empty frame and a first byte
`< 127` are `panic!`s (note: `< 127`, not `< 0x80`); a SysEx reject
becomes `none` because the caller only sees `parse_sysex`'s `Option`. -/
def parse_msg (bytes : List Nat) : PanicOr (Option MpkMidiMessage) :=
  if bytes.length = 0 then
    .panicked "ERROR: received message with length 0"
  else if bytes.getD 0 0 < 127 then
    .panicked "ERROR: received message with MSB unset (<127)"
  else if bytes.getD 0 0 &&& 0xf0 ≠ 0xf0 then
    parse_channel_msg bytes
  else
    match bytes.getD 0 0 with
    | 0xf0 =>
      (match parse_sysex bytes with
       | .panicked m => .panicked m
       | .ret (.ok m) => .ret (some m)
       | .ret _ => .ret none)
    | 0xff => .ret (some .Reset)
    | _ => .ret (some (.Unknown bytes))

end Midi

/-! ## Concrete inputs used by individual claims -/

/-- 108 bytes, all zero except wire byte 20 — the second byte (`program` on
the wire) of the first pad record (pads start at byte 19). -/
def c1buf : List Nat := List.replicate 20 0 ++ [1] ++ List.replicate 87 0

/-- What re-encoding the decoded `c1buf` actually produces: the 1 moved from
wire byte 20 to wire byte 21. -/
def c1out : List Nat := List.replicate 21 0 ++ [1] ++ List.replicate 86 0

/-- 108 bytes, all zero except the joystick-X field at bytes 13..15, set to
`[3, 7, 0]`: tag 3 is out of range, 7 is the (irrelevant) second byte. -/
def c9buf : List Nat := List.replicate 13 0 ++ [3, 7, 0] ++ List.replicate 92 0

/-- A complete, well-formed bank-report SysEx frame for bank 1 whose 108
descriptor bytes are all zero. -/
def c6frame : List Nat :=
  [0xf0, 0x47] ++ Midi.SYSEX_MPK_BANK ++ [1] ++ List.replicate 108 0 ++ [0xf7]

/-- The descriptor the all-zero 108 bytes decode to. -/
def c6desc : MpkBankDescriptor :=
  { octave := 0
    transpose := 0
    pad_midi_channel := 0
    keybed_channel := 0
    joystick_x := .pitchbend
    joystick_y := .pitchbend
    arpeggiator := .off
    arpeggiator_mode := .up
    arpeggiator_time_division := .d4
    arpeggiator_octave := 0
    swing := .s50
    latch := .off
    clock_source := .internal
    tempo_taps := 0
    tempo := ⟨0⟩
    knobs := List.replicate 8 ⟨0, 0, 0⟩
    pads := List.replicate 16 ⟨⟨0⟩, 0, 0, .momentary⟩ }

/-! ## Helper lemmas (bit arithmetic and wire lengths) -/

lemma and128_eq (x : Nat) : x &&& 128 = (x.testBit 7).toNat * 128 := by
  have h := Nat.and_two_pow x 7
  norm_num at h
  exact h

lemma and128_cases (x : Nat) : x &&& 128 = 0 ∨ x &&& 128 = 128 := by
  rw [and128_eq]
  cases x.testBit 7 <;> simp

lemma and128_full_iff (x : Nat) : x &&& 128 = 128 ↔ x &&& 128 ≠ 0 := by
  rcases and128_cases x with h | h <;> simp [h]

lemma and49152_eq_zero {x : Nat} (hx : x < 16384) : x &&& 49152 = 0 := by
  have hx' : x < 2 ^ 14 := by simpa using hx
  apply Nat.eq_of_testBit_eq
  intro i
  rw [show (49152 : Nat) = 2 ^ 14 ||| 2 ^ 15 from by decide]
  simp only [Nat.testBit_and, Nat.testBit_or, Nat.testBit_two_pow, Nat.zero_testBit]
  rcases eq_or_ne i 14 with rfl | h14
  · simp [Nat.testBit_lt_two_pow hx']
  rcases eq_or_ne i 15 with rfl | h15
  · have hx15 : x < 2 ^ 15 := lt_trans hx' (by norm_num)
    simp [Nat.testBit_lt_two_pow hx15]
  · simp [Ne.symm h14, Ne.symm h15]

lemma and49152_ne_zero {x : Nat} (hlo : 16384 ≤ x) (hhi : x < 65536) :
    x &&& 49152 ≠ 0 := by
  intro h0
  have t14 := congrArg (fun n => Nat.testBit n 14) h0
  have t15 := congrArg (fun n => Nat.testBit n 15) h0
  simp only [Nat.testBit_and, Nat.zero_testBit] at t14 t15
  rw [show (49152 : Nat).testBit 14 = true from by decide, Bool.and_true] at t14
  rw [show (49152 : Nat).testBit 15 = true from by decide, Bool.and_true] at t15
  rw [Nat.testBit_to_div_mod] at t14 t15
  simp only [decide_eq_false_iff_not] at t14 t15
  norm_num at t14 t15
  omega

lemma shift_mask_eq (h : Nat) : (h &&& 0x3f80) >>> 7 = (h >>> 7) &&& 0x7f := by
  apply Nat.eq_of_testBit_eq
  intro i
  simp only [Nat.testBit_shiftRight, Nat.testBit_and]
  congr 1
  rw [show (0x3f80 : Nat) = 0x7f <<< 7 from by decide, Nat.testBit_shiftLeft]
  simp

lemma testBit7_false_of_lt_256 {x : Nat} (hx : x < 256)
    (ht : x.testBit 7 = false) : x < 128 := by
  rw [Nat.testBit_to_div_mod] at ht
  simp only [decide_eq_false_iff_not] at ht
  norm_num at ht
  omega

lemma Joystick.to_bytes_length (j : Joystick) : j.to_bytes.length = 3 := by
  cases j <;> rfl

lemma pads_flatten_length (l : List Pad) :
    ((l.map Pad.to_bytes).flatten).length = 4 * l.length := by
  induction l with
  | nil => rfl
  | cons p t ih => simp [Pad.to_bytes, ih]; omega

lemma knobs_flatten_length (l : List Knob) :
    ((l.map Knob.to_bytes).flatten).length = 3 * l.length := by
  induction l with
  | nil => rfl
  | cons k t ih => simp [Knob.to_bytes, ih]; omega

/-! ## Claims -/

/-- C1: the bank-descriptor codec is NOT a bijection on valid inputs.
Evaluating the code at the failing input: `c1buf` is a fully valid 108-byte
buffer (every sub-field in its declared domain), yet
`into_bytes (from c1buf)` returns `c1out ≠ c1buf` — the first pad's wire
bytes 1 and 2 (`program` / `control`) come back swapped, because
`Pad::to_bytes` emits `[note, control, program, mode]` while `Pad::from`
reads `[note, program, control, mode]`. -/
theorem bank_roundtrip_pad_swap :
    (MpkBankDescriptor.from' c1buf).map MpkBankDescriptor.into_bytes
      = .ok (some c1out) ∧ c1out ≠ c1buf := by
  decide

/-- C2: the pad decoder does read wire order `[note, program, control, mode]`
(first conjunct), but the encoder does not reproduce that order: it writes
the struct field order `[note, control, program, mode]`, so wire bytes
`[0,1,2,0]` come back as `[0,2,1,0]`. -/
theorem pad_wire_order_not_reproduced :
    Pad.from' 0 1 2 0
      = .ok { note := ⟨0⟩, control := 2, program := 1, mode := .momentary } ∧
    Pad.to_bytes { note := ⟨0⟩, control := 2, program := 1, mode := .momentary }
      = [0, 2, 1, 0] ∧
    [0, 2, 1, 0] ≠ [0, 1, 2, 0] := by
  decide

/-- C3: the core does abort on malformed input.  `Note::from_str` unwraps the
octave parse (`"C x"` panics instead of returning a `ParseError`), and
`parse_msg` panics on the empty frame and on a first byte below its MSB
threshold instead of returning error values. -/
theorem parsers_abort_on_malformed :
    Note.from_str "C x" = .panicked "called Result::unwrap on an Err value" ∧
    Midi.parse_msg [] = .panicked "ERROR: received message with length 0" ∧
    Midi.parse_msg [0x50]
      = .panicked "ERROR: received message with MSB unset (<127)" := by
  decide

/-- C4: the MSB guard is `bytes[0] < 127`, not `< 0x80`: a frame whose first
byte is `0x7F` (MSB unset) is NOT rejected — it flows into channel-message
classification and silently decodes to `none` — while a genuinely rejected
frame like `[0x50]` dies with a panic rather than an `MsbUnset` error
value. -/
theorem msb_boundary_not_rejected :
    Midi.parse_msg [0x7f] = .ret none ∧
    Midi.parse_msg [0x7f, 0x00, 0x00] = .ret none ∧
    Midi.parse_msg [0x50]
      = .panicked "ERROR: received message with MSB unset (<127)" := by
  decide

/-- C5: the U14 wire codec.  Decoding fails exactly when `(b0|b1) & 0x80 ≠ 0`
and otherwise yields host value `(b0 << 7) | b1`; encoding a `u16` host value
fails exactly when it is `≥ 0x4000` and otherwise yields
`[(host >> 7) & 0x7f, host & 0x7f]`. -/
theorem u14_codec_correct (b0 b1 hst : Nat) (hb0 : b0 < 256) (hb1 : b1 < 256)
    (hh : hst < 65536) :
    ((U14BE.from_device b0 b1).toOption = none ↔ (b0 ||| b1) &&& 0x80 ≠ 0) ∧
    ((b0 ||| b1) &&& 0x80 = 0 →
      U14BE.from_device b0 b1 = .ok ⟨(b0 <<< 7) ||| b1⟩) ∧
    ((U14BE.to_device ⟨hst⟩).toOption = none ↔ 0x4000 ≤ hst) ∧
    (hst < 0x4000 →
      U14BE.to_device ⟨hst⟩ = .ok [(hst >>> 7) &&& 0x7f, hst &&& 0x7f]) := by
  refine ⟨?_, ?_, ?_, ?_⟩
  · rcases and128_cases (b0 ||| b1) with h | h <;>
      simp [U14BE.from_device, h, Except.toOption]
  · intro hz
    simp [U14BE.from_device, hz]
  · rcases lt_or_le hst 16384 with h | h
    · simp [U14BE.to_device, and49152_eq_zero h, Except.toOption]
      omega
    · simp [U14BE.to_device, and49152_ne_zero h hh, Except.toOption]
      omega
  · intro hlt
    simp [U14BE.to_device, and49152_eq_zero hlt, shift_mask_eq]

/-- C5 witness: the codec equations instantiated at `b0 = b1 = 0x7f` and
host value `16383`. -/
theorem u14_codec_correct_witness :
    ((U14BE.from_device 0x7f 0x7f).toOption = none ↔
      (0x7f ||| 0x7f) &&& 0x80 ≠ 0) ∧
    ((0x7f ||| 0x7f) &&& 0x80 = 0 →
      U14BE.from_device 0x7f 0x7f = .ok ⟨(0x7f <<< 7) ||| 0x7f⟩) ∧
    ((U14BE.to_device ⟨16383⟩).toOption = none ↔ 0x4000 ≤ 16383) ∧
    (16383 < 0x4000 →
      U14BE.to_device ⟨16383⟩ = .ok [(16383 >>> 7) &&& 0x7f, 16383 &&& 0x7f]) :=
  u14_codec_correct 0x7f 0x7f 16383 (by decide) (by decide) (by decide)

/-- C6: classification of a frame starting with the SysEx start byte:
shorter than 3 bytes or a bad end marker is a frame-shape (malformed)
reject; a second byte other than the AKAI manufacturer ID 0x47 is a
non-vendor reject; a payload carrying the 5-byte bank-report signature
decodes to `Bank(payload[5], descriptor(payload[6..]))`; any other vendor
payload is an unknown-vendor reject. -/
theorem parse_sysex_classification (bytes : List Nat)
    (h0 : bytes.getD 0 0 = 0xf0) :
    (bytes.length < 3 → Midi.parse_sysex bytes = .ret .runt) ∧
    (3 ≤ bytes.length → bytes.getLastD 0 ≠ 0xf7 →
      Midi.parse_sysex bytes = .ret .malformed) ∧
    (3 ≤ bytes.length → bytes.getLastD 0 = 0xf7 → bytes.getD 1 0 ≠ 0x47 →
      Midi.parse_sysex bytes = .ret .nonAkai) ∧
    (∀ i d, 3 ≤ bytes.length → bytes.getLastD 0 = 0xf7 →
      bytes.getD 1 0 = 0x47 →
      ((bytes.drop 2).dropLast).take 5 = Midi.SYSEX_MPK_BANK →
      idx ((bytes.drop 2).dropLast) 5 = .ret i →
      Midi.MpkBankDescriptor.from' (((bytes.drop 2).dropLast).drop 6) = .ret d →
      Midi.parse_sysex bytes = .ret (.ok (.Bank i d))) ∧
    (3 ≤ bytes.length → bytes.getLastD 0 = 0xf7 → bytes.getD 1 0 = 0x47 →
      ((bytes.drop 2).dropLast).take 5 ≠ Midi.SYSEX_MPK_BANK →
      Midi.parse_sysex bytes = .ret .unknownAkai) := by
  refine ⟨?_, ?_, ?_, ?_, ?_⟩
  · intro h
    unfold Midi.parse_sysex
    rw [if_pos h]
  · intro h3 hlast
    unfold Midi.parse_sysex
    simp only [Midi.MIDI_SYSEX_END]
    rw [if_neg (Nat.not_lt.mpr h3), if_pos hlast]
  · intro h3 hlast h1
    unfold Midi.parse_sysex
    simp only [Midi.MIDI_SYSEX_END, Midi.SYSEX_AKAI]
    rw [if_neg (Nat.not_lt.mpr h3), if_neg (not_not_intro hlast), if_pos h1]
  · intro i d h3 hlast h1 hsig hidx hdesc
    unfold Midi.parse_sysex
    simp only [Midi.MIDI_SYSEX_END, Midi.SYSEX_AKAI]
    rw [if_neg (Nat.not_lt.mpr h3), if_neg (not_not_intro hlast),
      if_neg (not_not_intro h1)]
    show (if ((bytes.drop 2).dropLast).take 5 = Midi.SYSEX_MPK_BANK then
        match idx ((bytes.drop 2).dropLast) 5 with
        | PanicOr.panicked m => (PanicOr.panicked m : PanicOr Midi.SysexParse)
        | PanicOr.ret bank =>
          match Midi.MpkBankDescriptor.from' (((bytes.drop 2).dropLast).drop 6) with
          | PanicOr.panicked m => PanicOr.panicked m
          | PanicOr.ret d2 =>
            PanicOr.ret (Midi.SysexParse.ok (MpkMidiMessage.Bank bank d2))
      else PanicOr.ret Midi.SysexParse.unknownAkai)
      = PanicOr.ret (Midi.SysexParse.ok (MpkMidiMessage.Bank i d))
    rw [if_pos hsig, hidx, hdesc]
  · intro h3 hlast h1 hsig
    unfold Midi.parse_sysex
    simp only [Midi.MIDI_SYSEX_END, Midi.SYSEX_AKAI]
    rw [if_neg (Nat.not_lt.mpr h3), if_neg (not_not_intro hlast),
      if_neg (not_not_intro h1)]
    show (if ((bytes.drop 2).dropLast).take 5 = Midi.SYSEX_MPK_BANK then
        match idx ((bytes.drop 2).dropLast) 5 with
        | PanicOr.panicked m => (PanicOr.panicked m : PanicOr Midi.SysexParse)
        | PanicOr.ret bank =>
          match Midi.MpkBankDescriptor.from' (((bytes.drop 2).dropLast).drop 6) with
          | PanicOr.panicked m => PanicOr.panicked m
          | PanicOr.ret d2 =>
            PanicOr.ret (Midi.SysexParse.ok (MpkMidiMessage.Bank bank d2))
      else PanicOr.ret Midi.SysexParse.unknownAkai)
      = PanicOr.ret Midi.SysexParse.unknownAkai
    rw [if_neg hsig]

/-- C6 witness: a complete bank-report frame for bank 1 with an all-zero
descriptor parses to `Bank 1 c6desc`. -/
theorem parse_sysex_classification_witness :
    Midi.parse_sysex c6frame = .ret (.ok (.Bank 1 c6desc)) :=
  (parse_sysex_classification c6frame (by decide)).2.2.2.1 1 c6desc
    (by decide) (by decide) (by decide) (by decide) (by decide) (by decide)

/-- C7: the note textual codec round-trips every MIDI key number 0..127
through `as_str`/`from_str`, with the documented concrete anchor points, and
all accepted enharmonic spellings of a pitch class map to the same
integer. -/
theorem note_text_roundtrip :
    (∀ v : Nat, v < 128 → Note.from_str (Note.as_str ⟨v⟩) = .ret (.ok ⟨v⟩)) ∧
    Note.from_str "C -1" = .ret (.ok ⟨0⟩) ∧
    Note.from_str "C# -1" = .ret (.ok ⟨1⟩) ∧
    Note.from_str "C#/Db -1" = .ret (.ok ⟨1⟩) ∧
    Note.from_str "G 9" = .ret (.ok ⟨127⟩) ∧
    Note.as_str ⟨0⟩ = "C -1" ∧
    (noteNameValue "C#" = some 1 ∧ noteNameValue "Db" = some 1 ∧
      noteNameValue "C#/Db" = some 1) ∧
    (noteNameValue "D#" = some 3 ∧ noteNameValue "Eb" = some 3 ∧
      noteNameValue "D#/Eb" = some 3) ∧
    (noteNameValue "F#" = some 6 ∧ noteNameValue "Gb" = some 6 ∧
      noteNameValue "F#/Gb" = some 6) ∧
    (noteNameValue "G#" = some 8 ∧ noteNameValue "Ab" = some 8 ∧
      noteNameValue "G#/Ab" = some 8) ∧
    (noteNameValue "A#" = some 10 ∧ noteNameValue "Bb" = some 10 ∧
      noteNameValue "A#/Bb" = some 10) := by
  decide

/-- C8: the get-bank request is the fixed 9-byte frame
`F0 47 00 26 66 00 01 <bank> F7` for every bank index. -/
theorem sysex_get_bank_frame (id : Nat) :
    Midi.sysex_get_bank id
      = [0xf0, 0x47, 0x00, 0x26, 0x66, 0x00, 0x01, id, 0xf7] ∧
    (Midi.sysex_get_bank id).length = 9 ∧
    Midi.sysex_get_bank 1
      = [0xf0, 0x47, 0x00, 0x26, 0x66, 0x00, 0x01, 0x01, 0xf7] :=
  ⟨rfl, rfl, rfl⟩

/-- C9: decoding a descriptor whose joystick field is `[3, 7, 0]` (tag 3 out
of range) fails, but the error carries `bytes[1] = 7`, not the offending tag
`bytes[0] = 3`. -/
theorem joystick_error_carries_wrong_byte :
    Joystick.from' 3 7 0 = .error "Invalid joystick mode 7" ∧
    MpkBankDescriptor.from' c9buf = .error "Invalid joystick mode 7" ∧
    "Invalid joystick mode 7" ≠ "Invalid joystick mode 3" := by
  decide

/-- C10: `into_bytes` cannot abort when the tempo host value is below 16384
(neither the tempo `unwrap` nor the length assertion fires) and returns
exactly 108 bytes; and every `U14BE` built by `from_device` from two device
bytes has its host value below 16384, so every decoded descriptor satisfies
the premise. -/
theorem into_bytes_yields_108_bytes (d : MpkBankDescriptor)
    (hp : d.pads.length = 16) (hk : d.knobs.length = 8)
    (ht : d.tempo.host < 16384) :
    (∃ l, d.into_bytes = some l ∧ l.length = 108) ∧
    (∀ b0 b1 u, b0 < 256 → b1 < 256 →
      U14BE.from_device b0 b1 = .ok u → u.host < 16384) := by
  constructor
  · have htd : d.tempo.to_device
        = .ok [(d.tempo.host &&& 0x3f80) >>> 7, d.tempo.host &&& 0x007f] := by
      simp [U14BE.to_device, and49152_eq_zero ht]
    have hlen : ([d.pad_midi_channel, d.keybed_channel, d.octave,
        d.arpeggiator.toU8, d.arpeggiator_mode.toU8,
        d.arpeggiator_time_division.toU8, d.clock_source.toU8, d.latch.toU8,
        d.swing.toU8, d.tempo_taps] ++
        [(d.tempo.host &&& 0x3f80) >>> 7, d.tempo.host &&& 0x007f] ++
        [d.arpeggiator_octave] ++
        d.joystick_x.to_bytes ++ d.joystick_y.to_bytes ++
        (d.pads.map Pad.to_bytes).flatten ++
        (d.knobs.map Knob.to_bytes).flatten ++ [d.transpose]).length = 108 := by
      simp only [List.length_append, List.length_cons, List.length_nil,
        pads_flatten_length, knobs_flatten_length, Joystick.to_bytes_length,
        hp, hk]
    refine ⟨_, ?_, hlen⟩
    simp only [MpkBankDescriptor.into_bytes, htd, MPK_BANK_DESCRIPTOR_LENGTH]
    rw [if_pos hlen]
  · intro b0 b1 u hb0 hb1 heq
    by_cases hc : (b0 ||| b1) &&& 0x80 = 0x80
    · simp [U14BE.from_device, hc] at heq
    · simp [U14BE.from_device, hc] at heq
      have hor : (b0 ||| b1) &&& 128 = 0 := by
        rcases and128_cases (b0 ||| b1) with h | h
        · exact h
        · exact absurd h hc
      have ht7 : (b0 ||| b1).testBit 7 = false := by
        rw [and128_eq] at hor
        cases hb : (b0 ||| b1).testBit 7
        · rfl
        · rw [hb] at hor
          norm_num at hor
      rw [Nat.testBit_or] at ht7
      have hb0' : b0 < 128 :=
        testBit7_false_of_lt_256 hb0 (by
          cases h : b0.testBit 7
          · rfl
          · rw [h] at ht7
            simp at ht7)
      have hb1' : b1 < 128 :=
        testBit7_false_of_lt_256 hb1 (by
          cases h : b1.testBit 7
          · rfl
          · rw [h] at ht7
            simp at ht7)
      rw [← heq]
      show (b0 <<< 7) ||| b1 < 16384
      have h14 : (16384 : Nat) = 2 ^ 14 := by norm_num
      rw [h14]
      refine Nat.or_lt_two_pow ?_ ?_
      · rw [Nat.shiftLeft_eq]
        norm_num
        omega
      · omega

/-- C10 witness: the all-zero descriptor (pads and knobs at their fixed
sizes, tempo 0) encodes to some 108-byte list, and the decoding bound
holds. -/
theorem into_bytes_yields_108_bytes_witness :
    (∃ l, c6desc.into_bytes = some l ∧ l.length = 108) ∧
    (∀ b0 b1 u, b0 < 256 → b1 < 256 →
      U14BE.from_device b0 b1 = .ok u → u.host < 16384) :=
  into_bytes_yields_108_bytes c6desc (by decide) (by decide) (by decide)

end MpkCtl
